import Mathlib

/-!
Shallow embedding of the `wsbuilder` package (workspace build orchestration).

The Go source inserts a new workspace build and provisioner job into the
database inside a retrying transaction.  Pure data is modelled by Lean
structures; the database store is a record of fallible functions; the
Builder's lazily-computed cache is threaded explicitly through every getter,
matching the Go pointer-receiver methods.  Machine `int32` build numbers are
modelled as `Int` with an explicit wrap.
-/

namespace Wsbuilder

/-- Models `uuid.UUID`; `uuid.Nil` is `⟨0⟩`. -/
structure UUID where
  val : Nat
deriving DecidableEq

def uuidNil : UUID := ⟨0⟩

/-- Models `uuid.NullUUID` (a UUID plus a validity flag). -/
structure NullUUID where
  valid : Bool
  uuid : UUID
deriving DecidableEq

/-- Store-level errors: `sql.ErrNoRows`, a `pq.Error` with its code, or any
other error. -/
inductive StoreErr
  | noRows
  | pq (code : String)
  | other (msg : String)
deriving DecidableEq

/-- Models `database.Workspace` (the fields the builder reads). -/
structure Workspace where
  id : UUID
  ownerID : UUID
  templateID : UUID
deriving DecidableEq

/-- Models `database.Template` (the fields the builder reads). -/
structure Template where
  id : UUID
  organizationID : UUID
  activeVersionID : UUID
  provisioner : String
deriving DecidableEq

/-- Models `database.TemplateVersion` (the fields the builder reads). -/
structure TemplateVersion where
  id : UUID
  templateID : NullUUID
  jobID : UUID
  name : String
deriving DecidableEq

/-- Modelled from the spec: `conversion.ConvertProvisionerJobStatus` (outside
src/) derives a job status from timestamps and the error field, collapsing to
pending, running, succeeded, failed or canceled.  We carry the derived status
as a field of the job. -/
inductive ProvisionerJobStatus
  | pending
  | running
  | succeeded
  | canceled
  | failed
deriving DecidableEq

/-- Modelled from the spec: "Active" means pending or running. -/
def ProvisionerJobStatus.Active : ProvisionerJobStatus → Bool
  | .pending => true
  | .running => true
  | _ => false

def ProvisionerJobStatus.toString : ProvisionerJobStatus → String
  | .pending => "pending"
  | .running => "running"
  | .succeeded => "succeeded"
  | .canceled => "canceled"
  | .failed => "failed"

/-- Models `database.ProvisionerJob` (the fields the builder reads; the
status field is the derived status view, see `ProvisionerJobStatus`). -/
structure ProvisionerJob where
  id : UUID
  status : ProvisionerJobStatus
  error : String
  storageMethod : String
  fileID : UUID
  tags : List String
deriving DecidableEq

/-- Models `database.WorkspaceBuild`. -/
structure WorkspaceBuild where
  id : UUID
  workspaceID : UUID
  templateVersionID : UUID
  buildNumber : Int
  provisionerState : List Nat
  initiatorID : UUID
  transition : String
  jobID : UUID
  reason : String
deriving DecidableEq

/-- Models `database.WorkspaceBuildParameter`. -/
structure WorkspaceBuildParameter where
  name : String
  value : String
deriving DecidableEq

/-- Models `database.TemplateVersionParameter` (only the name is read by the
builder itself; the rest is consumed by the external resolver). -/
structure TemplateVersionParameter where
  name : String
deriving DecidableEq

/-- Models `codersdk.TemplateVersionParameter`, the output of the external
`conversion.TemplateVersionParameter`. -/
structure SdkTemplateVersionParameter where
  name : String
deriving DecidableEq

/-- Models `database.ParameterValue` (legacy scoped parameter value). -/
structure ParameterValue where
  id : UUID
  name : String
deriving DecidableEq

/-- Models `codersdk.CreateParameterRequest` (legacy parameter override). -/
structure CreateParameterRequest where
  name : String
  sourceValue : String
  sourceScheme : String
  destinationScheme : String
deriving DecidableEq

/-- Models `database.InsertParameterValueParams` (timestamps omitted,
scope is always the workspace scope). -/
structure InsertParameterValueParams where
  id : UUID
  name : String
  scopeID : UUID
  sourceScheme : String
  sourceValue : String
  destinationScheme : String
deriving DecidableEq

/-- Models `provisionerdserver.WorkspaceProvisionJob`, the provisioner job
input payload (kept structured instead of JSON-marshalled). -/
structure WorkspaceProvisionJobInput where
  workspaceBuildID : UUID
  logLevel : String
deriving DecidableEq

/-- Models `database.InsertProvisionerJobParams` (timestamps and trace
metadata omitted). -/
structure InsertProvisionerJobParams where
  id : UUID
  initiatorID : UUID
  organizationID : UUID
  provisioner : String
  typ : String
  storageMethod : String
  fileID : UUID
  input : WorkspaceProvisionJobInput
  tags : List String
deriving DecidableEq

/-- Models `database.InsertWorkspaceBuildParams` (timestamps omitted). -/
structure InsertWorkspaceBuildParams where
  id : UUID
  workspaceID : UUID
  templateVersionID : UUID
  buildNumber : Int
  provisionerState : List Nat
  initiatorID : UUID
  transition : String
  jobID : UUID
  reason : String
deriving DecidableEq

/-- Models `database.InsertWorkspaceBuildParametersParams`. -/
structure InsertWorkspaceBuildParametersParams where
  workspaceBuildID : UUID
  names : List String
  values : List String
deriving DecidableEq

/-- One row-mutating store call issued by `buildTx`, in issue order. -/
inductive WriteOp
  | deleteParameterValue (id : UUID)
  | insertParameterValue (p : InsertParameterValueParams)
  | insertProvisionerJob (p : InsertProvisionerJobParams)
  | insertWorkspaceBuild (p : InsertWorkspaceBuildParams)
  | insertWorkspaceBuildParameters (p : InsertWorkspaceBuildParametersParams)
deriving DecidableEq

/-- Models `database.Store` as seen by the builder: each read or write used by
`buildTx`, plus the two external parameter-conversion/resolution collaborators
(`conversion.TemplateVersionParameter` and
`codersdk.ParameterResolver.ValidateResolve`), which are consumed as opaque
fallible functions. -/
structure Store where
  getTemplateByID : UUID → Except StoreErr Template
  getTemplateVersionByID : UUID → Except StoreErr TemplateVersion
  getProvisionerJobByID : UUID → Except StoreErr ProvisionerJob
  getLatestWorkspaceBuildByWorkspaceID : UUID → Except StoreErr WorkspaceBuild
  getWorkspaceBuildParameters : UUID → Except StoreErr (List WorkspaceBuildParameter)
  getTemplateVersionParameters : UUID → Except StoreErr (List TemplateVersionParameter)
  parameterValues : UUID → Except StoreErr (List ParameterValue)
  deleteParameterValueByID : UUID → Except StoreErr Unit
  insertParameterValue : InsertParameterValueParams → Except StoreErr ParameterValue
  insertProvisionerJob : InsertProvisionerJobParams → Except StoreErr ProvisionerJob
  insertWorkspaceBuild : InsertWorkspaceBuildParams → Except StoreErr WorkspaceBuild
  insertWorkspaceBuildParameters : InsertWorkspaceBuildParametersParams → Except StoreErr Unit
  convertTemplateVersionParameter : TemplateVersionParameter → Except String SdkTemplateVersionParameter
  validateResolve : List WorkspaceBuildParameter → List ParameterValue → SdkTemplateVersionParameter → Option WorkspaceBuildParameter → Except String String

def workspaceTransitionStart : String := "start"

def workspaceTransitionStop : String := "stop"

def workspaceTransitionDelete : String := "delete"

def buildReasonInitiator : String := "initiator"

def provisionerJobTypeWorkspaceBuild : String := "workspace_build"

/-- Modelled from the spec: `httpapi.ResourceNotFoundResponse` is outside
src/; the claims only need that the denial is reported as not-found (404). -/
def resourceNotFoundMessage : String := "Resource not found or you do not have access to this resource"

/-- Models `wsbuilder.versionTarget`. -/
structure VersionTarget where
  active : Bool
  specific : Option UUID
deriving DecidableEq

/-- Models `wsbuilder.stateTarget`. -/
structure StateTarget where
  orphan : Bool
  explicit : Option (List Nat)
deriving DecidableEq

/-- Models `rbac.Action` (the two actions the builder uses). -/
inductive RBACAction
  | update
  | delete
deriving DecidableEq

/-- Models `rbac.Objecter` for the two resources the builder authorizes
against (the workspace and the template's RBAC object). -/
inductive RBACObject
  | workspace (w : Workspace)
  | template (t : Template)
deriving DecidableEq

/-- Models the `authFunc` preflight authorization callback. -/
def AuthFunc : Type := RBACAction → RBACObject → Bool

/-- Models `wsbuilder.Builder`: configuration fields followed by the lazy
cache fields, exactly as in the Go struct. -/
structure Builder where
  workspace : Workspace
  trans : String
  version : VersionTarget
  state : StateTarget
  logLevel : String
  legacyParameterValues : List CreateParameterRequest
  richParameterValues : List WorkspaceBuildParameter
  initiator : UUID
  reason : String
  template : Option Template
  templateVersion : Option TemplateVersion
  templateVersionJob : Option ProvisionerJob
  templateVersionParameters : Option (List TemplateVersionParameter)
  lastBuild : Option WorkspaceBuild
  lastBuildParameters : Option (List WorkspaceBuildParameter)
  lastParameterValues : Option (List ParameterValue)
  lastBuildJob : Option ProvisionerJob
deriving DecidableEq

/-- Models `wsbuilder.New`. -/
def New (w : Workspace) (t : String) : Builder :=
  { workspace := w, trans := t, version := ⟨false, none⟩, state := ⟨false, none⟩
    logLevel := "", legacyParameterValues := [], richParameterValues := []
    initiator := uuidNil, reason := "", template := none, templateVersion := none
    templateVersionJob := none, templateVersionParameters := none, lastBuild := none
    lastBuildParameters := none, lastParameterValues := none, lastBuildJob := none }

/-- Models `Builder.VersionID`. -/
def Builder.VersionID (b : Builder) (v : UUID) : Builder :=
  { b with version := ⟨false, some v⟩ }

/-- Models `Builder.ActiveVersion`. -/
def Builder.ActiveVersion (b : Builder) : Builder :=
  { b with version := ⟨true, none⟩ }

/-- Models `Builder.State`. -/
def Builder.State (b : Builder) (st : List Nat) : Builder :=
  { b with state := ⟨false, some st⟩ }

/-- Models `Builder.Orphan`. -/
def Builder.Orphan (b : Builder) : Builder :=
  { b with state := ⟨true, none⟩ }

/-- Models `Builder.LogLevel`. -/
def Builder.LogLevel (b : Builder) (l : String) : Builder :=
  { b with logLevel := l }

/-- Models `Builder.Initiator`. -/
def Builder.Initiator (b : Builder) (u : UUID) : Builder :=
  { b with initiator := u }

/-- Models `Builder.Reason`. -/
def Builder.Reason (b : Builder) (r : String) : Builder :=
  { b with reason := r }

/-- Models `Builder.LegacyParameterValues`. -/
def Builder.LegacyParameterValues (b : Builder) (p : List CreateParameterRequest) : Builder :=
  { b with legacyParameterValues := p }

/-- Models `Builder.RichParameterValues`. -/
def Builder.RichParameterValues (b : Builder) (p : List WorkspaceBuildParameter) : Builder :=
  { b with richParameterValues := p }

/-- Models `Builder.SetLastWorkspaceBuildInTx`. -/
def Builder.SetLastWorkspaceBuildInTx (b : Builder) (bld : WorkspaceBuild) : Builder :=
  { b with lastBuild := some bld }

/-- Models `Builder.SetLastWorkspaceBuildJobInTx`. -/
def Builder.SetLastWorkspaceBuildJobInTx (b : Builder) (j : ProvisionerJob) : Builder :=
  { b with lastBuildJob := some j }

/-- Models `wsbuilder.BuildError`: HTTP status, message and the wrapped
cause (a store error, when the cause came from the store). -/
structure BuildError where
  status : Nat
  message : String
  wrapped : Option StoreErr
deriving DecidableEq

/-- Models `(*Builder).getTemplate` with the cache threaded explicitly. -/
def getTemplate (s : Store) (b : Builder) : Except StoreErr Template × Builder :=
  match b.template with
  | some t => (.ok t, b)
  | none =>
    match s.getTemplateByID b.workspace.templateID with
    | .error e => (.error e, b)
    | .ok t => (.ok t, { b with template := some t })

/-- Models `(*Builder).getLastBuild`. -/
def getLastBuild (s : Store) (b : Builder) : Except StoreErr WorkspaceBuild × Builder :=
  match b.lastBuild with
  | some bld => (.ok bld, b)
  | none =>
    match s.getLatestWorkspaceBuildByWorkspaceID b.workspace.id with
    | .error e => (.error e, b)
    | .ok bld => (.ok bld, { b with lastBuild := some bld })

/-- Models `(*Builder).getTemplateVersionID`: specific takes precedence,
then active, then the last build's version. -/
def getTemplateVersionID (s : Store) (b : Builder) : Except StoreErr UUID × Builder :=
  match b.version.specific with
  | some v => (.ok v, b)
  | none =>
    if b.version.active then
      match getTemplate s b with
      | (.error e, b₁) => (.error e, b₁)
      | (.ok t, b₁) => (.ok t.activeVersionID, b₁)
    else
      match getLastBuild s b with
      | (.error e, b₁) => (.error e, b₁)
      | (.ok bld, b₁) => (.ok bld.templateVersionID, b₁)

/-- Models `(*Builder).getTemplateVersion`. -/
def getTemplateVersion (s : Store) (b : Builder) : Except StoreErr TemplateVersion × Builder :=
  match b.templateVersion with
  | some v => (.ok v, b)
  | none =>
    match getTemplateVersionID s b with
    | (.error e, b₁) => (.error e, b₁)
    | (.ok id, b₁) =>
      match s.getTemplateVersionByID id with
      | .error e => (.error e, b₁)
      | .ok v => (.ok v, { b₁ with templateVersion := some v })

/-- Models `(*Builder).getTemplateVersionJob`. -/
def getTemplateVersionJob (s : Store) (b : Builder) : Except StoreErr ProvisionerJob × Builder :=
  match b.templateVersionJob with
  | some j => (.ok j, b)
  | none =>
    match getTemplateVersion s b with
    | (.error e, b₁) => (.error e, b₁)
    | (.ok v, b₁) =>
      match s.getProvisionerJobByID v.jobID with
      | .error e => (.error e, b₁)
      | .ok j => (.ok j, { b₁ with templateVersionJob := some j })

/-- Signed 32-bit wraparound (numerals are 2^31 and 2^32): the result of a
Go `int32` computation. -/
def int32ext (x : Int) : Int := (x + 2147483648) % 4294967296 - 2147483648

/-- Models `(*Builder).getBuildNumber`: the last build's number plus one,
as `int32` arithmetic.  There is no branch for a missing prior build. -/
def getBuildNumber (s : Store) (b : Builder) : Except StoreErr Int × Builder :=
  match getLastBuild s b with
  | (.error e, b₁) => (.error e, b₁)
  | (.ok bld, b₁) => (.ok (int32ext (bld.buildNumber + 1)), b₁)

/-- Models `(*Builder).getState`: orphan wins, then an explicit blob,
then the prior build's state. -/
def getState (s : Store) (b : Builder) : Except StoreErr (List Nat) × Builder :=
  if b.state.orphan then (.ok [], b)
  else
    match b.state.explicit with
    | some st => (.ok st, b)
    | none =>
      match getLastBuild s b with
      | (.error e, b₁) => (.error e, b₁)
      | (.ok bld, b₁) => (.ok bld.provisionerState, b₁)

/-- Models `(*Builder).getLastBuildJob`. -/
def getLastBuildJob (s : Store) (b : Builder) : Except StoreErr ProvisionerJob × Builder :=
  match b.lastBuildJob with
  | some j => (.ok j, b)
  | none =>
    match getLastBuild s b with
    | (.error e, b₁) => (.error e, b₁)
    | (.ok bld, b₁) =>
      match s.getProvisionerJobByID bld.jobID with
      | .error e => (.error e, b₁)
      | .ok j => (.ok j, { b₁ with lastBuildJob := some j })

/-- Models `(*Builder).getLastBuildParameters` (a missing-rows error is
tolerated and yields the empty list; the Go method does not fill the cache). -/
def getLastBuildParameters (s : Store) (b : Builder) : Except StoreErr (List WorkspaceBuildParameter) × Builder :=
  match b.lastBuildParameters with
  | some ps => (.ok ps, b)
  | none =>
    match getLastBuild s b with
    | (.error e, b₁) => (.error e, b₁)
    | (.ok bld, b₁) =>
      match s.getWorkspaceBuildParameters bld.id with
      | .error .noRows => (.ok [], b₁)
      | .error e => (.error e, b₁)
      | .ok vs => (.ok vs, b₁)

/-- Models `(*Builder).getTemplateVersionParameters` (missing rows tolerated;
the fetched list, possibly empty, is cached). -/
def getTemplateVersionParameters (s : Store) (b : Builder) : Except StoreErr (List TemplateVersionParameter) × Builder :=
  match b.templateVersionParameters with
  | some ps => (.ok ps, b)
  | none =>
    match getTemplateVersionID s b with
    | (.error e, b₁) => (.error e, b₁)
    | (.ok tvID, b₁) =>
      match s.getTemplateVersionParameters tvID with
      | .error .noRows => (.ok [], { b₁ with templateVersionParameters := some [] })
      | .error e => (.error e, b₁)
      | .ok ps => (.ok ps, { b₁ with templateVersionParameters := some ps })

/-- Models `(*Builder).getLastParameterValues` (missing rows tolerated; the
fetched list, possibly empty, is cached). -/
def getLastParameterValues (s : Store) (b : Builder) : Except StoreErr (List ParameterValue) × Builder :=
  match b.lastParameterValues with
  | some ps => (.ok ps, b)
  | none =>
    match s.parameterValues b.workspace.id with
    | .error .noRows => (.ok [], { b with lastParameterValues := some [] })
    | .error e => (.error e, b)
    | .ok ps => (.ok ps, { b with lastParameterValues := some ps })

/-- Models `(*Builder).checkTemplateVersionMatchesTemplate`. -/
def checkTemplateVersionMatchesTemplate (s : Store) (b : Builder) : Except BuildError Unit × Builder :=
  match getTemplate s b with
  | (.error e, b₁) => (.error ⟨500, "failed to fetch template", some e⟩, b₁)
  | (.ok t, b₁) =>
    match getTemplateVersion s b₁ with
    | (.error e, b₂) => (.error ⟨500, "failed to fetch template version", some e⟩, b₂)
    | (.ok v, b₂) =>
      if v.templateID.valid = false ∨ v.templateID.uuid ≠ t.id then
        (.error ⟨400, "template version doesn't match template", none⟩, b₂)
      else
        (.ok (), b₂)

/-- Models `(*Builder).checkTemplateJobStatus`: pending/running are rejected
as 406 not-acceptable; failed and canceled as 400 with distinct messages;
succeeded passes. -/
def checkTemplateJobStatus (s : Store) (b : Builder) : Except BuildError Unit × Builder :=
  match getTemplateVersion s b with
  | (.error e, b₁) => (.error ⟨500, "failed to fetch template version", some e⟩, b₁)
  | (.ok v, b₁) =>
    match getTemplateVersionJob s b₁ with
    | (.error e, b₂) => (.error ⟨500, "failed to fetch template version job", some e⟩, b₂)
    | (.ok j, b₂) =>
      match j.status with
      | .pending =>
        (.error ⟨406, "The provided template version is " ++ j.status.toString ++ ". Wait for it to complete importing!", none⟩, b₂)
      | .running =>
        (.error ⟨406, "The provided template version is " ++ j.status.toString ++ ". Wait for it to complete importing!", none⟩, b₂)
      | .failed =>
        (.error ⟨400, "The provided template version \"" ++ v.name ++ "\" has failed to import: \"" ++ j.error ++ "\". You cannot build workspaces with it!", none⟩, b₂)
      | .canceled =>
        (.error ⟨400, "The provided template version was canceled during import. You cannot build workspaces with it!", none⟩, b₂)
      | .succeeded => (.ok (), b₂)

/-- Models `(*Builder).checkRunningBuild`: a pending/running job on the last
build is a 409 conflict. -/
def checkRunningBuild (s : Store) (b : Builder) : Except BuildError Unit × Builder :=
  match getLastBuildJob s b with
  | (.error e, b₁) => (.error ⟨500, "failed to fetch prior build", some e⟩, b₁)
  | (.ok j, b₁) =>
    if j.status.Active then
      (.error ⟨409, "A workspace build is already active.", none⟩, b₁)
    else
      (.ok (), b₁)

/-- Models `(*Builder).authorize`: map the transition to an action, check it
against the workspace (denial is 404), then the template-level checks for
custom state (403) and custom log level (400). -/
def authorize (af : AuthFunc) (s : Store) (b : Builder) : Except BuildError Unit × Builder :=
  match (if b.trans = workspaceTransitionDelete then some RBACAction.delete
         else if b.trans = workspaceTransitionStart ∨ b.trans = workspaceTransitionStop then some RBACAction.update
         else none) with
  | none => (.error ⟨400, "Transition \"" ++ b.trans ++ "\" not supported.", none⟩, b)
  | some action =>
    if af action (.workspace b.workspace) = false then
      (.error ⟨404, resourceNotFoundMessage, none⟩, b)
    else
      match getTemplate s b with
      | (.error e, b₁) => (.error ⟨500, "failed to fetch template", some e⟩, b₁)
      | (.ok t, b₁) =>
        if (b₁.state.explicit ≠ none ∨ b₁.state.orphan = true) ∧ af .update (.template t) = false then
          (.error ⟨403, "Only template managers may provide custom state", none⟩, b₁)
        else if b₁.logLevel ≠ "" ∧ af .update (.template t) = false then
          (.error ⟨400, "Workspace builds with a custom log level are restricted to template authors only.", none⟩, b₁)
        else
          (.ok (), b₁)

/-- Models `(*Builder).findNewBuildParameterValue`. -/
def findNewBuildParameterValue (b : Builder) (name : String) : Option WorkspaceBuildParameter :=
  b.richParameterValues.find? (fun v => v.name == name)

/-- The fresh UUIDs produced by `uuid.New` during one `buildTx`, numbered in
call order. -/
def freshUUID (n : Nat) : UUID := ⟨1000000 + n⟩

/-- Modelled from the spec: `provisionerdserver.MutateTags` is outside src/;
per the spec, worker tags are augmented with the requesting owner's
identity. -/
def mutateTags (ownerID : UUID) (tags : List String) : List String :=
  tags ++ ["owner:" ++ Nat.repr ownerID.val]

/-- The inner Go loop of the legacy-parameter upsert: delete every existing
same-named value; a missing-rows error from the delete is tolerated. -/
def deleteExistingParams (s : Store) (pname : String) : List ParameterValue → List WriteOp → Except (BuildError × List WriteOp) (List WriteOp)
  | [], ws => .ok ws
  | e :: rest, ws =>
    if e.name = pname then
      match s.deleteParameterValueByID e.id with
      | .error .noRows => deleteExistingParams s pname rest ws
      | .error err => .error (⟨500, "Failed to delete old param \"" ++ e.name ++ "\"", some err⟩, ws)
      | .ok _ => deleteExistingParams s pname rest (ws ++ [WriteOp.deleteParameterValue e.id])
    else
      deleteExistingParams s pname rest ws

/-- The outer Go loop over `b.legacyParameterValues`: delete-then-insert for
each override.  Returns the next fresh-UUID index and the write log. -/
def insertLegacyParams (s : Store) (wsID : UUID) (existing : List ParameterValue) : List CreateParameterRequest → Nat → List WriteOp → Except (BuildError × List WriteOp) (Nat × List WriteOp)
  | [], n, ws => .ok (n, ws)
  | p :: rest, n, ws =>
    match deleteExistingParams s p.name existing ws with
    | .error ew => .error ew
    | .ok ws₁ =>
      let params : InsertParameterValueParams :=
        { id := freshUUID n, name := p.name, scopeID := wsID
          sourceScheme := p.sourceScheme, sourceValue := p.sourceValue
          destinationScheme := p.destinationScheme }
      match s.insertParameterValue params with
      | .error e => .error (⟨500, "insert parameter value", some e⟩, ws₁)
      | .ok _ => insertLegacyParams s wsID existing rest (n + 1) (ws₁ ++ [WriteOp.insertParameterValue params])

/-- The fold inside `(*Builder).getParameters`: convert each declared
template-version parameter and resolve its value through the external
resolver; a conversion failure is a 500, a resolution failure a 400. -/
def resolveParams (s : Store) (b : Builder) (lastBuildParams : List WorkspaceBuildParameter) (lastVals : List ParameterValue) : List TemplateVersionParameter → Except BuildError (List String × List String)
  | [] => .ok ([], [])
  | tvp :: rest =>
    match s.convertTemplateVersionParameter tvp with
    | .error _ => .error ⟨500, "failed to convert template version parameter", none⟩
    | .ok ctvp =>
      match s.validateResolve lastBuildParams lastVals ctvp (findNewBuildParameterValue b tvp.name) with
      | .error msg => .error ⟨400, msg, none⟩
      | .ok value =>
        match resolveParams s b lastBuildParams lastVals rest with
        | .error e => .error e
        | .ok (names, values) => .ok (tvp.name :: names, value :: values)

/-- Models `(*Builder).getParameters`. -/
def getParameters (s : Store) (b : Builder) : Except BuildError (List String × List String) × Builder :=
  match getTemplateVersionParameters s b with
  | (.error e, b₁) => (.error ⟨500, "failed to fetch template version parameters", some e⟩, b₁)
  | (.ok tvps, b₁) =>
    match getLastBuildParameters s b₁ with
    | (.error e, b₂) => (.error ⟨500, "failed to fetch last build parameters", some e⟩, b₂)
    | (.ok lbps, b₂) =>
      match getLastParameterValues s b₂ with
      | (.error e, b₃) => (.error ⟨500, "failed to fetch last parameter values", some e⟩, b₃)
      | (.ok lpvs, b₃) =>
        match resolveParams s b₃ lbps lpvs tvps with
        | .error e => (.error e, b₃)
        | .ok nv => (.ok nv, b₃)

/-- Result of one `buildTx` attempt: outcome, the builder with whatever the
attempt cached, and the row mutations the attempt issued. -/
structure TxOut where
  res : Except BuildError (WorkspaceBuild × ProvisionerJob)
  builder : Builder
  writes : List WriteOp

/-- The optional authorization preflight at the top of `buildTx`
(`if authFunc != nil`). -/
def preflight (af : Option AuthFunc) (s : Store) (b : Builder) : Except BuildError Unit × Builder :=
  match af with
  | none => (.ok (), b)
  | some f => authorize f s b

/-- Models `(*Builder).buildTx`: the four preliminary checks, the lazy
computations of the new build's attributes, and the inserts, in source
order. -/
def buildTx (s : Store) (af : Option AuthFunc) (b : Builder) : TxOut :=
  match preflight af s b with
  | (.error e, b₀) => ⟨.error e, b₀, []⟩
  | (.ok _, b₀) =>
  match checkTemplateVersionMatchesTemplate s b₀ with
  | (.error e, b₁) => ⟨.error e, b₁, []⟩
  | (.ok _, b₁) =>
  match checkTemplateJobStatus s b₁ with
  | (.error e, b₂) => ⟨.error e, b₂, []⟩
  | (.ok _, b₂) =>
  match checkRunningBuild s b₂ with
  | (.error e, b₃) => ⟨.error e, b₃, []⟩
  | (.ok _, b₃) =>
  match getTemplate s b₃ with
  | (.error e, b₄) => ⟨.error ⟨500, "failed to fetch template", some e⟩, b₄, []⟩
  | (.ok template, b₄) =>
  match getTemplateVersionJob s b₄ with
  | (.error e, b₅) => ⟨.error ⟨500, "failed to fetch template version job", some e⟩, b₅, []⟩
  | (.ok templateVersionJob, b₅) =>
  match getLastParameterValues s b₅ with
  | (.error e, b₆) => ⟨.error ⟨500, "failed to fetch previous legacy parameters.", some e⟩, b₆, []⟩
  | (.ok legacyParameters, b₆) =>
  let b₇ := if b₆.initiator = uuidNil then { b₆ with initiator := b₆.workspace.ownerID } else b₆
  let b₈ := if b₇.reason = "" then { b₇ with reason := buildReasonInitiator } else b₇
  match insertLegacyParams s b₈.workspace.id legacyParameters b₈.legacyParameterValues 0 [] with
  | .error (e, ws) => ⟨.error e, b₈, ws⟩
  | .ok (n₁, writes₁) =>
  let workspaceBuildID := freshUUID n₁
  let input : WorkspaceProvisionJobInput := ⟨workspaceBuildID, b₈.logLevel⟩
  let tags := mutateTags b₈.workspace.ownerID templateVersionJob.tags
  let pjParams : InsertProvisionerJobParams :=
    { id := freshUUID (n₁ + 1), initiatorID := b₈.initiator
      organizationID := template.organizationID, provisioner := template.provisioner
      typ := provisionerJobTypeWorkspaceBuild, storageMethod := templateVersionJob.storageMethod
      fileID := templateVersionJob.fileID, input := input, tags := tags }
  match s.insertProvisionerJob pjParams with
  | .error e => ⟨.error ⟨500, "insert provisioner job", some e⟩, b₈, writes₁⟩
  | .ok provisionerJob =>
  let writes₂ := writes₁ ++ [WriteOp.insertProvisionerJob pjParams]
  match getTemplateVersionID s b₈ with
  | (.error e, b₉) => ⟨.error ⟨500, "compute template version ID", some e⟩, b₉, writes₂⟩
  | (.ok templateVersionID, b₉) =>
  match getBuildNumber s b₉ with
  | (.error e, b10) => ⟨.error ⟨500, "compute build number", some e⟩, b10, writes₂⟩
  | (.ok buildNum, b10) =>
  match getState s b10 with
  | (.error e, b11) => ⟨.error ⟨500, "compute build state", some e⟩, b11, writes₂⟩
  | (.ok state, b11) =>
  let wbParams : InsertWorkspaceBuildParams :=
    { id := workspaceBuildID, workspaceID := b11.workspace.id
      templateVersionID := templateVersionID, buildNumber := buildNum
      provisionerState := state, initiatorID := b11.initiator, transition := b11.trans
      jobID := provisionerJob.id, reason := b11.reason }
  match s.insertWorkspaceBuild wbParams with
  | .error e => ⟨.error ⟨500, "insert workspace build", some e⟩, b11, writes₂⟩
  | .ok workspaceBuild =>
  let writes₃ := writes₂ ++ [WriteOp.insertWorkspaceBuild wbParams]
  match getParameters s b11 with
  | (.error e, b12) => ⟨.error e, b12, writes₃⟩
  | (.ok (names, values), b12) =>
  let wbpParams : InsertWorkspaceBuildParametersParams := ⟨workspaceBuildID, names, values⟩
  match s.insertWorkspaceBuildParameters wbpParams with
  | .error e => ⟨.error ⟨500, "insert workspace build parameters: %w", some e⟩, b12, writes₃⟩
  | .ok _ => ⟨.ok (workspaceBuild, provisionerJob), b12, writes₃ ++ [WriteOp.insertWorkspaceBuildParameters wbpParams]⟩

/-- Models the serialization-failure test in `Build`: `xerrors.As` finds a
`pq.Error` through `BuildError.Unwrap` and compares its code to `"40001"`. -/
def isSerializationError (e : BuildError) : Bool :=
  match e.wrapped with
  | some (.pq code) => code == "40001"
  | _ => false

/-- The caller-facing error of `Build`: either the attempt's error, or the
retry-exhaustion wrap of the last attempt's error (`too many errors`). -/
inductive BuildResultErr
  | buildErr (e : BuildError)
  | tooManyErrors (last : Option BuildError)
deriving DecidableEq

/-- The retry loop of `Build`, structured on remaining fuel (five attempts
total).  `i` is the attempt index, `last` the last attempt's error; on a
serialization failure the loop continues with the same builder value,
including whatever its cache now holds. -/
def buildLoop (env : Nat → Store) (af : Option AuthFunc) : Nat → Nat → Builder → Option BuildError → Except BuildResultErr (WorkspaceBuild × ProvisionerJob)
  | 0, _, _, last => .error (.tooManyErrors last)
  | fuel + 1, i, b, _ =>
    let o := buildTx (env i) af b
    match o.res with
    | .error e =>
      if isSerializationError e then buildLoop env af fuel (i + 1) o.builder (some e)
      else .error (.buildErr e)
    | .ok p => .ok p

/-- Models `(*Builder).Build`: up to five transaction attempts; the store the
transaction wrapper hands to attempt `i` is `env i`. -/
def Build (env : Nat → Store) (af : Option AuthFunc) (b : Builder) : Except BuildResultErr (WorkspaceBuild × ProvisionerJob) :=
  buildLoop env af 5 0 b none

/-- The builder value fed into attempt `i` of `Build` (attempt 0 receives the
configured builder; each later attempt receives the previous attempt's
builder, cache included). -/
def builderAtAttempt (env : Nat → Store) (af : Option AuthFunc) (b : Builder) : Nat → Builder
  | 0 => b
  | i + 1 => (buildTx (env i) af (builderAtAttempt env af b i)).builder

/-- The outcome of attempt `i` of `Build`. -/
def attemptRes (env : Nat → Store) (af : Option AuthFunc) (b : Builder) (i : Nat) : Except BuildError (WorkspaceBuild × ProvisionerJob) :=
  (buildTx (env i) af (builderAtAttempt env af b i)).res

/-- Whether an attempt outcome is a serialization failure. -/
def resIsSerialization : Except BuildError (WorkspaceBuild × ProvisionerJob) → Bool
  | .error e => isSerializationError e
  | .ok _ => false

/-- The error of an attempt outcome, when there is one. -/
def errOf : Except BuildError (WorkspaceBuild × ProvisionerJob) → Option BuildError
  | .error e => some e
  | .ok _ => none

/-- Whether an attempt outcome is a success. -/
def resIsOk : Except BuildError (WorkspaceBuild × ProvisionerJob) → Bool
  | .error _ => false
  | .ok _ => true

/-- The `last error` value the retry loop holds when attempt `k` starts
(the error of attempt `k - 1`, or none before the first attempt). -/
def lastErrAt (env : Nat → Store) (af : Option AuthFunc) (b : Builder) : Nat → Option BuildError
  | 0 => none
  | j + 1 => errOf (attemptRes env af b j)

/-- Whether a `Build` outcome is a success. -/
def buildResIsOk : Except BuildResultErr (WorkspaceBuild × ProvisionerJob) → Bool
  | .error _ => false
  | .ok _ => true

/-! Concrete fixtures: a consistent workspace/template/version/build history
used to exercise the theorems on closed inputs. -/

def wsA : Workspace := ⟨⟨1⟩, ⟨2⟩, ⟨3⟩⟩

def templA : Template := ⟨⟨3⟩, ⟨4⟩, ⟨5⟩, "terraform"⟩

def verA : TemplateVersion := ⟨⟨5⟩, ⟨true, ⟨3⟩⟩, ⟨6⟩, "v1"⟩

def importJobA : ProvisionerJob := ⟨⟨6⟩, .succeeded, "", "file", ⟨7⟩, []⟩

def lastBuildA : WorkspaceBuild := ⟨⟨8⟩, ⟨1⟩, ⟨5⟩, 3, [1, 2], ⟨2⟩, "start", ⟨9⟩, "initiator"⟩

/-- The provisioner job of the prior build, with a chosen derived status. -/
def lastJobA (st : ProvisionerJobStatus) : ProvisionerJob := ⟨⟨9⟩, st, "", "file", ⟨7⟩, []⟩

/-- A store holding the fixture rows, with a prior build whose job carries
status `lastSt` and a template-version import job with status `importSt`;
inserts echo the inserted row. -/
def mkStore (importSt lastSt : ProvisionerJobStatus) : Store :=
  { getTemplateByID := fun id => if id = ⟨3⟩ then .ok templA else .error .noRows
    getTemplateVersionByID := fun id => if id = ⟨5⟩ then .ok verA else .error .noRows
    getProvisionerJobByID := fun id =>
      if id = ⟨6⟩ then .ok { importJobA with status := importSt }
      else if id = ⟨9⟩ then .ok (lastJobA lastSt)
      else .error .noRows
    getLatestWorkspaceBuildByWorkspaceID := fun id => if id = ⟨1⟩ then .ok lastBuildA else .error .noRows
    getWorkspaceBuildParameters := fun _ => .ok []
    getTemplateVersionParameters := fun _ => .ok []
    parameterValues := fun _ => .ok []
    deleteParameterValueByID := fun _ => .ok ()
    insertParameterValue := fun p => .ok ⟨p.id, p.name⟩
    insertProvisionerJob := fun p => .ok ⟨p.id, .pending, "", p.storageMethod, p.fileID, p.tags⟩
    insertWorkspaceBuild := fun p => .ok ⟨p.id, p.workspaceID, p.templateVersionID, p.buildNumber, p.provisionerState, p.initiatorID, p.transition, p.jobID, p.reason⟩
    insertWorkspaceBuildParameters := fun _ => .ok ()
    convertTemplateVersionParameter := fun tvp => .ok ⟨tvp.name⟩
    validateResolve := fun _ _ _ o => .ok (match o with | some v => v.value | none => "") }

/-- The fully consistent store: import succeeded, prior build's job done. -/
def storeA : Store := mkStore .succeeded .succeeded

/-- The fixture builder: start transition targeting the specific version. -/
def builderA : Builder := (New wsA "start").VersionID ⟨5⟩

/-- The provisioner job `buildTx storeA none builderA` creates. -/
def newJobA : ProvisionerJob := ⟨⟨1000001⟩, .pending, "", "file", ⟨7⟩, ["owner:2"]⟩

/-- The workspace build `buildTx storeA none builderA` creates. -/
def newBuildA : WorkspaceBuild := ⟨⟨1000000⟩, ⟨1⟩, ⟨5⟩, 4, [1, 2], ⟨2⟩, "start", ⟨1000001⟩, "initiator"⟩

/-- A store whose template read reports a serialization failure
(`pq` code 40001). -/
def storeSer : Store := { storeA with getTemplateByID := fun _ => .error (.pq "40001") }

/-- Serialization failures on attempts 0-3, then the consistent store. -/
def envA4 : Nat → Store := fun i => if i < 4 then storeSer else storeA

/-- A store whose template-version read reports a serialization failure,
after the template itself was fetched (and cached) successfully. -/
def storeSerVer : Store := { storeA with getTemplateVersionByID := fun _ => .error (.pq "40001") }

def envSerVer : Nat → Store := fun _ => storeSerVer

/-- The consistent store for a workspace with no prior build: the latest
workspace build read reports `sql.ErrNoRows`. -/
def storeNP : Store := { storeA with getLatestWorkspaceBuildByWorkspaceID := fun _ => .error .noRows }

def envNP : Nat → Store := fun _ => storeNP

/-- A template version belonging to a different template than `templA`. -/
def verB : TemplateVersion := ⟨⟨55⟩, ⟨true, ⟨99⟩⟩, ⟨6⟩, "v2"⟩

/-- No prior build, and version ⟨55⟩ resolves to the mismatching `verB`. -/
def storeC10 : Store :=
  { storeNP with getTemplateVersionByID := fun id => if id = ⟨55⟩ then .ok verB else .error .noRows }

def envC10 : Nat → Store := fun _ => storeC10

/-- A builder targeting the mismatching version ⟨55⟩. -/
def builderMismatch : Builder := (New wsA "start").VersionID ⟨55⟩

/-- Prior build's job still running, and version ⟨55⟩ resolves to the
mismatching `verB`. -/
def storeC2 : Store :=
  { mkStore .succeeded .running with
    getTemplateVersionByID := fun id => if id = ⟨55⟩ then .ok verB else storeA.getTemplateVersionByID id }

/-- Prior build's job still running, everything else consistent. -/
def storeRunning : Store := mkStore .succeeded .running

def envRunning : Nat → Store := fun _ => storeRunning

/-- Template-version import job still pending. -/
def storePend : Store := mkStore .pending .succeeded

/-- Template-version import job failed. -/
def storeFail : Store := mkStore .failed .succeeded

/-- An authorizer that allows every workspace-level action and denies every
template-level action. -/
def afDenyTemplate : AuthFunc := fun _ o =>
  match o with
  | .workspace _ => true
  | .template _ => false

/-- The fixture builder with a custom log level configured. -/
def builderLogLevel : Builder := builderA.LogLevel "debug"

/-- Builder-side part of the no-prior-build configuration: the workspace is
pinned and the two prior-build cache slots are empty. -/
def noCacheW (w : Workspace) (b : Builder) : Prop :=
  b.workspace = w ∧ b.lastBuild = none ∧ b.lastBuildJob = none

/-- A workspace with no prior build, as seen through store `s` and builder
`b`: empty prior-build cache and a store that reports no rows for the
workspace's latest build. -/
def npw (s : Store) (w : Workspace) (b : Builder) : Prop :=
  noCacheW w b ∧ s.getLatestWorkspaceBuildByWorkspaceID w.id = .error .noRows

/-! Theorems. -/

lemma int32ext_eq_self (x : Int) (h1 : -2147483648 ≤ x) (h2 : x < 2147483648) :
    int32ext x = x := by
  unfold int32ext
  omega

/-- Claim C1 (amended): the build number computed for the new build is the
previous build's number plus one (within `int32` range); when the workspace
has no prior build the computation fails with the store's error instead of
yielding 1. -/
theorem C1_build_number (s : Store) (b : Builder) :
    (∀ lb b₁, getLastBuild s b = (.ok lb, b₁) →
      -2147483648 ≤ lb.buildNumber → lb.buildNumber < 2147483647 →
      getBuildNumber s b = (.ok (lb.buildNumber + 1), b₁)) ∧
    (∀ e b₁, getLastBuild s b = (.error e, b₁) →
      getBuildNumber s b = (.error e, b₁)) := by
  constructor
  · intro lb b₁ h h1 h2
    simp [getBuildNumber, h, int32ext_eq_self (lb.buildNumber + 1) (by omega) (by omega)]
  · intro e b₁ h
    simp [getBuildNumber, h]

/-- Witness for C1 on the fixture: prior build number 3 yields 4. -/
theorem C1_build_number_witness :
    getBuildNumber storeA builderA = (.ok 4, { builderA with lastBuild := some lastBuildA }) :=
  (C1_build_number storeA builderA).1 lastBuildA _ rfl (by decide) (by decide)

/-- Counterexample to C1 as stated: for a workspace with no prior build,
`Build` fails with an internal error from the prior-build check instead of
assigning build number 1, and the build-number computation itself reports
the no-rows error. -/
theorem C1_counterexample :
    Build envNP none builderA = .error (.buildErr ⟨500, "failed to fetch prior build", some .noRows⟩) ∧
    (getBuildNumber storeNP builderA).1 = .error .noRows :=
  ⟨rfl, rfl⟩

/-- Claim C4: default state copies the previous build's state verbatim;
orphan always yields empty state; an explicit blob is used exactly. -/
theorem C4_state_selection (s : Store) (b : Builder) :
    (b.state.orphan = true → getState s b = (.ok [], b)) ∧
    (∀ blob, b.state.orphan = false → b.state.explicit = some blob →
      getState s b = (.ok blob, b)) ∧
    (∀ lb b₁, b.state.orphan = false → b.state.explicit = none →
      getLastBuild s b = (.ok lb, b₁) →
      getState s b = (.ok lb.provisionerState, b₁)) := by
  refine ⟨fun h => ?_, fun blob h1 h2 => ?_, fun lb b₁ h1 h2 h3 => ?_⟩
  · simp [getState, h]
  · simp [getState, h1, h2]
  · simp [getState, h1, h2, h3]

/-- Witness for C4: orphan, explicit and default state on the fixture. -/
theorem C4_state_selection_witness :
    getState storeA builderA.Orphan = (.ok [], builderA.Orphan) ∧
    getState storeA (builderA.State [9, 9]) = (.ok [9, 9], builderA.State [9, 9]) ∧
    getState storeA builderA = (.ok [1, 2], { builderA with lastBuild := some lastBuildA }) :=
  ⟨(C4_state_selection storeA builderA.Orphan).1 rfl,
   (C4_state_selection storeA (builderA.State [9, 9])).2.1 [9, 9] rfl rfl,
   (C4_state_selection storeA builderA).2.2 lastBuildA _ rfl rfl rfl⟩

/-- Claim C6: version id precedence is specific, then active, then the last
build's version, exhaustively. -/
theorem C6_version_precedence (s : Store) (b : Builder) :
    (∀ v, b.version.specific = some v → getTemplateVersionID s b = (.ok v, b)) ∧
    (∀ t b₁, b.version.specific = none → b.version.active = true →
      getTemplate s b = (.ok t, b₁) →
      getTemplateVersionID s b = (.ok t.activeVersionID, b₁)) ∧
    (∀ lb b₁, b.version.specific = none → b.version.active = false →
      getLastBuild s b = (.ok lb, b₁) →
      getTemplateVersionID s b = (.ok lb.templateVersionID, b₁)) := by
  refine ⟨fun v hv => ?_, fun t b₁ h1 h2 h3 => ?_, fun lb b₁ h1 h2 h3 => ?_⟩
  · simp [getTemplateVersionID, hv]
  · simp [getTemplateVersionID, h1, h2, h3]
  · simp [getTemplateVersionID, h1, h2, h3]

/-- Witness for C6 at the three concrete selectors. -/
theorem C6_version_precedence_witness :
    getTemplateVersionID storeA builderA = (.ok ⟨5⟩, builderA) ∧
    getTemplateVersionID storeA ((New wsA "start").ActiveVersion) =
      (.ok ⟨5⟩, { (New wsA "start").ActiveVersion with template := some templA }) ∧
    getTemplateVersionID storeA (New wsA "start") =
      (.ok ⟨5⟩, { New wsA "start" with lastBuild := some lastBuildA }) :=
  ⟨(C6_version_precedence storeA builderA).1 ⟨5⟩ rfl,
   (C6_version_precedence storeA ((New wsA "start").ActiveVersion)).2.1 templA _ rfl rfl rfl,
   (C6_version_precedence storeA (New wsA "start")).2.2 lastBuildA _ rfl rfl rfl⟩

/-- Claim C5: a template version that is unset or belongs to another
template is rejected with 400 and the attempt writes nothing; the error is
surfaced unchanged by `Build`. -/
theorem C5_version_template_mismatch (s : Store) (b : Builder) :
    (∀ t v b₁ b₂, getTemplate s b = (.ok t, b₁) →
      getTemplateVersion s b₁ = (.ok v, b₂) →
      (v.templateID.valid = false ∨ v.templateID.uuid ≠ t.id) →
      checkTemplateVersionMatchesTemplate s b =
        (.error ⟨400, "template version doesn't match template", none⟩, b₂)) ∧
    (∀ af b₀ e b₁, preflight af s b = (.ok (), b₀) →
      checkTemplateVersionMatchesTemplate s b₀ = (.error e, b₁) →
      (buildTx s af b).res = .error e ∧ (buildTx s af b).writes = []) ∧
    (∀ e b₁, checkTemplateVersionMatchesTemplate s b = (.error e, b₁) →
      isSerializationError e = false →
      Build (fun _ => s) none b = .error (.buildErr e)) := by
  refine ⟨fun t v b₁ b₂ h1 h2 h3 => ?_, fun af b₀ e b₁ h1 h2 => ?_, fun e b₁ h1 h2 => ?_⟩
  · simp only [checkTemplateVersionMatchesTemplate, h1, h2]
    rw [if_pos h3]
  · refine ⟨?_, ?_⟩ <;> simp [buildTx, h1, h2]
  · simp [Build, buildLoop, buildTx, preflight, h1, h2]

/-- Witness for C5 on the mismatching fixture version. -/
theorem C5_version_template_mismatch_witness :
    checkTemplateVersionMatchesTemplate storeC10 builderMismatch =
      (.error ⟨400, "template version doesn't match template", none⟩,
        { builderMismatch with template := some templA, templateVersion := some verB }) ∧
    (buildTx storeC10 none builderMismatch).res =
      .error ⟨400, "template version doesn't match template", none⟩ ∧
    (buildTx storeC10 none builderMismatch).writes = [] ∧
    Build envC10 none builderMismatch =
      .error (.buildErr ⟨400, "template version doesn't match template", none⟩) :=
  ⟨(C5_version_template_mismatch storeC10 builderMismatch).1 templA verB _ _ rfl rfl
      (Or.inr (by decide)),
   ((C5_version_template_mismatch storeC10 builderMismatch).2.1 none builderMismatch _ _ rfl rfl).1,
   ((C5_version_template_mismatch storeC10 builderMismatch).2.1 none builderMismatch _ _ rfl rfl).2,
   (C5_version_template_mismatch storeC10 builderMismatch).2.2 _ _ rfl rfl⟩

/-- Claim C7 (amended): failed and canceled imports are rejected as 400 with
distinct messages; pending and running imports are rejected as 406
not-acceptable; only a succeeded import proceeds. -/
theorem C7_import_status_gate (s : Store) (b : Builder) :
    ∀ v j b₁ b₂, getTemplateVersion s b = (.ok v, b₁) →
      getTemplateVersionJob s b₁ = (.ok j, b₂) →
      ((j.status = .pending ∨ j.status = .running →
        checkTemplateJobStatus s b =
          (.error ⟨406, "The provided template version is " ++ j.status.toString ++ ". Wait for it to complete importing!", none⟩, b₂)) ∧
       (j.status = .failed →
        checkTemplateJobStatus s b =
          (.error ⟨400, "The provided template version \"" ++ v.name ++ "\" has failed to import: \"" ++ j.error ++ "\". You cannot build workspaces with it!", none⟩, b₂)) ∧
       (j.status = .canceled →
        checkTemplateJobStatus s b =
          (.error ⟨400, "The provided template version was canceled during import. You cannot build workspaces with it!", none⟩, b₂)) ∧
       (j.status = .succeeded → checkTemplateJobStatus s b = (.ok (), b₂))) := by
  intro v j b₁ b₂ h1 h2
  refine ⟨fun h3 => ?_, fun h3 => ?_, fun h3 => ?_, fun h3 => ?_⟩
  · rcases h3 with h3 | h3 <;> simp [checkTemplateJobStatus, h1, h2, h3]
  · simp [checkTemplateJobStatus, h1, h2, h3]
  · simp [checkTemplateJobStatus, h1, h2, h3]
  · simp [checkTemplateJobStatus, h1, h2, h3]

/-- Witness for C7: pending yields 406, failed yields 400, succeeded passes,
on the fixtures. -/
theorem C7_import_status_gate_witness :
    checkTemplateJobStatus storePend builderA =
      (.error ⟨406, "The provided template version is pending. Wait for it to complete importing!", none⟩,
        { builderA with templateVersion := some verA, templateVersionJob := some { importJobA with status := .pending } }) ∧
    checkTemplateJobStatus storeFail builderA =
      (.error ⟨400, "The provided template version \"v1\" has failed to import: \"\". You cannot build workspaces with it!", none⟩,
        { builderA with templateVersion := some verA, templateVersionJob := some { importJobA with status := .failed } }) ∧
    checkTemplateJobStatus storeA builderA =
      (.ok (), { builderA with templateVersion := some verA, templateVersionJob := some importJobA }) :=
  ⟨(C7_import_status_gate storePend builderA verA _ _ _ rfl rfl).1 (Or.inl rfl),
   (C7_import_status_gate storeFail builderA verA _ _ _ rfl rfl).2.1 rfl,
   (C7_import_status_gate storeA builderA verA _ _ _ rfl rfl).2.2.2 rfl⟩

/-- Counterexample to C7 as stated: a pending import is rejected with status
406 not-acceptable, not as a bad request (400). -/
theorem C7_counterexample :
    (checkTemplateJobStatus storePend builderA).1 =
      .error ⟨406, "The provided template version is pending. Wait for it to complete importing!", none⟩ ∧
    (406 : Nat) ≠ 400 :=
  ⟨rfl, by decide⟩

/-- Claim C2 (amended): when the preflight authorization (if any) and the
template-version checks pass and the last build's job is active, the attempt
returns the 409 conflict, writes no rows, and `Build` surfaces the
conflict unchanged — independently of state selector and parameter inputs. -/
theorem C2_active_build_conflict (s : Store) (af : Option AuthFunc) (b : Builder) :
    ∀ b₀ b₁ b₂ b₃ j,
      preflight af s b = (.ok (), b₀) →
      checkTemplateVersionMatchesTemplate s b₀ = (.ok (), b₁) →
      checkTemplateJobStatus s b₁ = (.ok (), b₂) →
      getLastBuildJob s b₂ = (.ok j, b₃) →
      j.status.Active = true →
      (buildTx s af b).res = .error ⟨409, "A workspace build is already active.", none⟩ ∧
      (buildTx s af b).writes = [] ∧
      Build (fun _ => s) af b = .error (.buildErr ⟨409, "A workspace build is already active.", none⟩) := by
  intro b₀ b₁ b₂ b₃ j h0 h1 h2 h3 h4
  have hc : checkRunningBuild s b₂ =
      (.error ⟨409, "A workspace build is already active.", none⟩, b₃) := by
    simp [checkRunningBuild, h3, h4]
  refine ⟨?_, ?_, ?_⟩
  · simp [buildTx, h0, h1, h2, hc]
  · simp [buildTx, h0, h1, h2, hc]
  · simp [Build, buildLoop, buildTx, h0, h1, h2, hc, isSerializationError]

/-- Witness for C2 on the fixture with a running prior-build job. -/
theorem C2_active_build_conflict_witness :
    (buildTx storeRunning none builderA).res =
      .error ⟨409, "A workspace build is already active.", none⟩ ∧
    (buildTx storeRunning none builderA).writes = [] ∧
    Build envRunning none builderA =
      .error (.buildErr ⟨409, "A workspace build is already active.", none⟩) :=
  C2_active_build_conflict storeRunning none builderA _ _ _ _ (lastJobA .running)
    rfl rfl rfl rfl rfl

/-- Counterexample to C2 as stated: the last build's job is active, yet a
mismatching version selector makes `Build` return 400 from the earlier
template check, not the 409 conflict — the conflict is not returned
regardless of the other inputs. -/
theorem C2_counterexample :
    (buildTx storeC2 none builderMismatch).res =
      .error ⟨400, "template version doesn't match template", none⟩ ∧
    (getLastBuildJob storeC2 builderMismatch).1 = .ok (lastJobA .running) ∧
    (lastJobA .running).status.Active = true :=
  ⟨rfl, rfl, rfl⟩

/-- Claim C8 (amended): a custom log level with update-action denied on the
template fails the authorization preflight with a 400 bad-request (not 403)
before any row is inserted. -/
theorem C8_log_level_denial (s : Store) (af : AuthFunc) (b : Builder) :
    ∀ t b₁,
      b.trans = workspaceTransitionStart →
      af .update (.workspace b.workspace) = true →
      getTemplate s b = (.ok t, b₁) →
      b₁.state.explicit = none → b₁.state.orphan = false →
      b₁.logLevel ≠ "" →
      af .update (.template t) = false →
      authorize af s b =
        (.error ⟨400, "Workspace builds with a custom log level are restricted to template authors only.", none⟩, b₁) ∧
      (buildTx s (some af) b).res =
        .error ⟨400, "Workspace builds with a custom log level are restricted to template authors only.", none⟩ ∧
      (buildTx s (some af) b).writes = [] := by
  intro t b₁ htr hws hget hse ho hll hdeny
  have ha : authorize af s b =
      (.error ⟨400, "Workspace builds with a custom log level are restricted to template authors only.", none⟩, b₁) := by
    simp [authorize, htr, workspaceTransitionStart, workspaceTransitionDelete,
      workspaceTransitionStop, hws, hget, hse, ho, hll, hdeny]
  exact ⟨ha, by simp [buildTx, preflight, ha], by simp [buildTx, preflight, ha]⟩

/-- Witness for C8 with an authorizer denying template-level actions. -/
theorem C8_log_level_denial_witness :
    authorize afDenyTemplate storeA builderLogLevel =
      (.error ⟨400, "Workspace builds with a custom log level are restricted to template authors only.", none⟩,
        { builderLogLevel with template := some templA }) ∧
    (buildTx storeA (some afDenyTemplate) builderLogLevel).res =
      .error ⟨400, "Workspace builds with a custom log level are restricted to template authors only.", none⟩ ∧
    (buildTx storeA (some afDenyTemplate) builderLogLevel).writes = [] :=
  C8_log_level_denial storeA afDenyTemplate builderLogLevel templA _
    rfl rfl rfl rfl rfl (by decide) rfl

/-- Counterexample to C8 as stated: the custom-log-level denial carries
status 400 bad request, not the 403 forbidden classification. -/
theorem C8_counterexample :
    (authorize afDenyTemplate storeA builderLogLevel).1 =
      .error ⟨400, "Workspace builds with a custom log level are restricted to template authors only.", none⟩ ∧
    (400 : Nat) ≠ 403 :=
  ⟨rfl, by decide⟩

lemma buildLoop_skip (env : Nat → Store) (af : Option AuthFunc) (b : Builder) :
    ∀ k, k ≤ 5 → (∀ j, j < k → resIsSerialization (attemptRes env af b j) = true) →
    Build env af b =
      buildLoop env af (5 - k) k (builderAtAttempt env af b k) (lastErrAt env af b k) := by
  intro k
  induction k with
  | zero => intro _ _; rfl
  | succ n ih =>
    intro hk hser
    have hb : Build env af b =
        buildLoop env af (5 - n) n (builderAtAttempt env af b n) (lastErrAt env af b n) :=
      ih (by omega) (fun j hj => hser j (by omega))
    obtain ⟨m, hm⟩ : ∃ m, 5 - n = m + 1 := ⟨4 - n, by omega⟩
    cases hres : attemptRes env af b n with
    | ok p =>
      exfalso
      have hcontra := hser n (by omega)
      rw [hres] at hcontra
      simp [resIsSerialization] at hcontra
    | error e =>
      have hser_e : isSerializationError e = true := by
        have hx := hser n (by omega)
        rw [hres] at hx
        simpa [resIsSerialization] using hx
      have hres' : (buildTx (env n) af (builderAtAttempt env af b n)).res = .error e := hres
      have hlast : lastErrAt env af b (n + 1) = some e := by
        simp [lastErrAt, hres, errOf]
      rw [hlast, hb, hm]
      have hstep : buildLoop env af (m + 1) n (builderAtAttempt env af b n) (lastErrAt env af b n) =
          buildLoop env af m (n + 1) (buildTx (env n) af (builderAtAttempt env af b n)).builder (some e) := by
        simp only [buildLoop, hres', hser_e, if_true]
      rw [hstep, show m = 5 - (n + 1) from by omega]
      rfl

/-- Claim C3: serialization failures (pq code 40001) on attempts 1-4 with a
successful attempt 5 yield that success; serialization failures on all five
attempts yield the retry-exhaustion error wrapping the last attempt's error;
a non-serialization error at any attempt aborts immediately. -/
theorem C3_retry_policy (env : Nat → Store) (af : Option AuthFunc) (b : Builder) :
    (∀ p, (∀ j, j < 4 → resIsSerialization (attemptRes env af b j) = true) →
      attemptRes env af b 4 = .ok p →
      Build env af b = .ok p) ∧
    ((∀ j, j < 5 → resIsSerialization (attemptRes env af b j) = true) →
      Build env af b = .error (.tooManyErrors (errOf (attemptRes env af b 4)))) ∧
    (∀ k e, k < 5 → (∀ j, j < k → resIsSerialization (attemptRes env af b j) = true) →
      attemptRes env af b k = .error e → isSerializationError e = false →
      Build env af b = .error (.buildErr e)) := by
  refine ⟨fun p hser hok => ?_, fun hser => ?_, fun k e hk hser herr hns => ?_⟩
  · rw [buildLoop_skip env af b 4 (by omega) hser]
    have hok' : (buildTx (env 4) af (builderAtAttempt env af b 4)).res = .ok p := hok
    simp [buildLoop, hok']
  · rw [buildLoop_skip env af b 5 (by omega) hser]
    simp [buildLoop, lastErrAt]
  · rw [buildLoop_skip env af b k (by omega) hser]
    obtain ⟨m, hm⟩ : ∃ m, 5 - k = m + 1 := ⟨4 - k, by omega⟩
    rw [hm]
    have herr' : (buildTx (env k) af (builderAtAttempt env af b k)).res = .error e := herr
    simp [buildLoop, herr', hns]

/-- Witness for C3: four serialization failures then a clean store yield the
fixture's new build and job on the fifth attempt. -/
theorem C3_retry_policy_witness :
    Build envA4 none builderA = .ok (newBuildA, newJobA) :=
  (C3_retry_policy envA4 none builderA).1 (newBuildA, newJobA) (by decide) rfl

/-- Claim C9 (refuted by the code): after attempt 0 fetches and caches the
template and then fails with a serialization error, attempt 1 starts with
the template still cached — the Builder's lazy cache is not cleared between
retry attempts. -/
theorem C9_cache_carried_over :
    resIsSerialization (attemptRes envSerVer none builderA 0) = true ∧
    (builderAtAttempt envSerVer none builderA 1).template = some templA :=
  ⟨rfl, rfl⟩

lemma npw_getLastBuild (s : Store) (w : Workspace) (b : Builder) (h : npw s w b) :
    getLastBuild s b = (.error .noRows, b) := by
  obtain ⟨⟨hw, hlb, hlbj⟩, hs⟩ := h
  simp [getLastBuild, hlb, hw, hs]

lemma npw_getTemplate (s : Store) (w : Workspace) (b : Builder) (h : npw s w b) :
    npw s w (getTemplate s b).2 := by
  unfold getTemplate
  split
  · exact h
  · split <;> exact h

lemma npw_getTemplateVersionID (s : Store) (w : Workspace) (b : Builder) (h : npw s w b) :
    npw s w (getTemplateVersionID s b).2 := by
  unfold getTemplateVersionID
  split
  · exact h
  · split
    · have hT := npw_getTemplate s w b h
      split
      · next e b₁ heq => rw [heq] at hT; exact hT
      · next t b₁ heq => rw [heq] at hT; exact hT
    · rw [npw_getLastBuild s w b h]
      exact h

lemma npw_getTemplateVersion (s : Store) (w : Workspace) (b : Builder) (h : npw s w b) :
    npw s w (getTemplateVersion s b).2 := by
  unfold getTemplateVersion
  split
  · exact h
  · have hI := npw_getTemplateVersionID s w b h
    split
    · next e b₁ heq => rw [heq] at hI; exact hI
    · next id b₁ heq =>
      rw [heq] at hI
      split <;> exact hI

lemma npw_getTemplateVersionJob (s : Store) (w : Workspace) (b : Builder) (h : npw s w b) :
    npw s w (getTemplateVersionJob s b).2 := by
  unfold getTemplateVersionJob
  split
  · exact h
  · have hV := npw_getTemplateVersion s w b h
    split
    · next e b₁ heq => rw [heq] at hV; exact hV
    · next v b₁ heq =>
      rw [heq] at hV
      split <;> exact hV

lemma npw_authorize (af : AuthFunc) (s : Store) (w : Workspace) (b : Builder) (h : npw s w b) :
    npw s w (authorize af s b).2 := by
  unfold authorize
  split
  · exact h
  · split
    · exact h
    · have hT := npw_getTemplate s w b h
      split
      · next e b₁ heq => rw [heq] at hT; exact hT
      · next t b₁ heq =>
        rw [heq] at hT
        split
        · exact hT
        · split <;> exact hT

lemma npw_preflight (af : Option AuthFunc) (s : Store) (w : Workspace) (b : Builder) (h : npw s w b) :
    npw s w (preflight af s b).2 := by
  unfold preflight
  split
  · exact h
  · exact npw_authorize _ s w b h

lemma npw_checkTemplateVersionMatchesTemplate (s : Store) (w : Workspace) (b : Builder)
    (h : npw s w b) : npw s w (checkTemplateVersionMatchesTemplate s b).2 := by
  unfold checkTemplateVersionMatchesTemplate
  have hT := npw_getTemplate s w b h
  split
  · next e b₁ heq => rw [heq] at hT; exact hT
  · next t b₁ heq =>
    rw [heq] at hT
    have hV := npw_getTemplateVersion s w b₁ hT
    split
    · next e b₂ heq2 => rw [heq2] at hV; exact hV
    · next v b₂ heq2 =>
      rw [heq2] at hV
      split <;> exact hV

lemma npw_checkTemplateJobStatus (s : Store) (w : Workspace) (b : Builder)
    (h : npw s w b) : npw s w (checkTemplateJobStatus s b).2 := by
  unfold checkTemplateJobStatus
  have hV := npw_getTemplateVersion s w b h
  split
  · next e b₁ heq => rw [heq] at hV; exact hV
  · next v b₁ heq =>
    rw [heq] at hV
    have hJ := npw_getTemplateVersionJob s w b₁ hV
    split
    · next e b₂ heq2 => rw [heq2] at hJ; exact hJ
    · next j b₂ heq2 =>
      rw [heq2] at hJ
      split <;> exact hJ

lemma npw_checkRunningBuild (s : Store) (w : Workspace) (b : Builder) (h : npw s w b) :
    checkRunningBuild s b = (.error ⟨500, "failed to fetch prior build", some .noRows⟩, b) := by
  have hlbj : b.lastBuildJob = none := h.1.2.2
  unfold checkRunningBuild getLastBuildJob
  rw [hlbj, npw_getLastBuild s w b h]

lemma npw_buildTx (s : Store) (w : Workspace) (af : Option AuthFunc) (b : Builder)
    (h : npw s w b) :
    resIsOk (buildTx s af b).res = false ∧ npw s w (buildTx s af b).builder := by
  unfold buildTx
  have h0 := npw_preflight af s w b h
  split
  · next e b₀ heq => rw [heq] at h0; exact ⟨rfl, h0⟩
  · next u b₀ heq =>
    rw [heq] at h0
    have h1 := npw_checkTemplateVersionMatchesTemplate s w b₀ h0
    split
    · next e b₁ heq1 => rw [heq1] at h1; exact ⟨rfl, h1⟩
    · next u1 b₁ heq1 =>
      rw [heq1] at h1
      have h2 := npw_checkTemplateJobStatus s w b₁ h1
      split
      · next e b₂ heq2 => rw [heq2] at h2; exact ⟨rfl, h2⟩
      · next u2 b₂ heq2 =>
        rw [heq2] at h2
        rw [npw_checkRunningBuild s w b₂ h2]
        exact ⟨rfl, h2⟩

lemma npw_buildLoop (env : Nat → Store) (af : Option AuthFunc) (w : Workspace)
    (henv : ∀ n, (env n).getLatestWorkspaceBuildByWorkspaceID w.id = .error .noRows) :
    ∀ fuel i b last, noCacheW w b →
      buildResIsOk (buildLoop env af fuel i b last) = false := by
  intro fuel
  induction fuel with
  | zero => intro i b last hb; rfl
  | succ n ih =>
    intro i b last hb
    have hbt := npw_buildTx (env i) w af b ⟨hb, henv i⟩
    simp only [buildLoop]
    split
    · next e heq =>
      split
      · exact ih (i + 1) (buildTx (env i) af b).builder (some e) hbt.2.1
      · rfl
    · next p heq =>
      rw [heq] at hbt
      exact absurd hbt.1 (by simp [resIsOk])

/-- Claim C10 (amended): a workspace with no prior build can never be built:
every attempt fails, and whenever the preflight and the template checks pass
the failure is the internal-server error of the unconditional prior-build
check, with nothing written; `Build` as a whole never succeeds.  (Earlier
checks may classify the failure differently for some selectors.) -/
theorem C10_no_first_build (s : Store) (env : Nat → Store) (af : Option AuthFunc) (b : Builder)
    (hb1 : b.lastBuild = none) (hb2 : b.lastBuildJob = none)
    (hs : s.getLatestWorkspaceBuildByWorkspaceID b.workspace.id = .error .noRows)
    (henv : ∀ n, (env n).getLatestWorkspaceBuildByWorkspaceID b.workspace.id = .error .noRows) :
    resIsOk (buildTx s af b).res = false ∧
    (∀ b₀ b₁ b₂, preflight af s b = (.ok (), b₀) →
      checkTemplateVersionMatchesTemplate s b₀ = (.ok (), b₁) →
      checkTemplateJobStatus s b₁ = (.ok (), b₂) →
      (buildTx s af b).res = .error ⟨500, "failed to fetch prior build", some .noRows⟩ ∧
      (buildTx s af b).writes = []) ∧
    buildResIsOk (Build env af b) = false := by
  have hnp : npw s b.workspace b := ⟨⟨rfl, hb1, hb2⟩, hs⟩
  refine ⟨(npw_buildTx s b.workspace af b hnp).1, fun b₀ b₁ b₂ h0 h1 h2 => ?_, ?_⟩
  · have g0 := npw_preflight af s b.workspace b hnp
    rw [h0] at g0
    have g1 := npw_checkTemplateVersionMatchesTemplate s b.workspace b₀ g0
    rw [h1] at g1
    have g2 := npw_checkTemplateJobStatus s b.workspace b₁ g1
    rw [h2] at g2
    have hc := npw_checkRunningBuild s b.workspace b₂ g2
    constructor <;> simp [buildTx, h0, h1, h2, hc]
  · exact npw_buildLoop env af b.workspace henv 5 0 b none ⟨rfl, hb1, hb2⟩

/-- Witness for C10 on the no-prior-build fixture store. -/
theorem C10_no_first_build_witness :
    resIsOk (buildTx storeNP none builderA).res = false ∧
    buildResIsOk (Build envNP none builderA) = false ∧
    (buildTx storeNP none builderA).res =
      .error ⟨500, "failed to fetch prior build", some .noRows⟩ :=
  ⟨(C10_no_first_build storeNP envNP none builderA rfl rfl rfl (fun _ => rfl)).1,
   (C10_no_first_build storeNP envNP none builderA rfl rfl rfl (fun _ => rfl)).2.2,
   ((C10_no_first_build storeNP envNP none builderA rfl rfl rfl (fun _ => rfl)).2.1
      _ _ _ rfl rfl rfl).1⟩

/-- Counterexample to C10 as stated: with no prior build but a mismatching
specific version selector, `Build` fails with the 400 template-check error,
not with an internal-server error from the prior-build check — so the
failure is not always the prior-build-check error for every selector. -/
theorem C10_counterexample :
    Build envC10 none builderMismatch =
      .error (.buildErr ⟨400, "template version doesn't match template", none⟩) ∧
    storeC10.getLatestWorkspaceBuildByWorkspaceID wsA.id = .error .noRows ∧
    (400 : Nat) ≠ 500 :=
  ⟨rfl, rfl, by decide⟩

end Wsbuilder
